import Mathlib

/-!
Shallow embedding of the options_escrow program (src/options_escrow/src/lib.rs).

Machine integers are modelled as Nat with explicit wrapping modulo 2 ^ 64
where u64 overflow matters: the program performs plain u64 arithmetic in a
release build, so multiplication and subtraction wrap.  Pubkeys are Nat,
i64 timestamps are Int.  Each instruction handler is a pure function from
the accounts it touches (and its arguments) to
Except Err accounts; returning Except.error models an aborted transaction,
which on the ledger substrate leaves every account unchanged.
-/

/-- Modulus of u64 arithmetic. -/
def U64MOD : Nat := 2 ^ 64

/-- The fee formula shared by initialize_escrow (line 36), settle_escrow
(line 95) and exercise_early (line 155): collateral_amount * fee_rate / 10000
in wrapping u64 arithmetic. -/
def fee_u64 (amount rate : Nat) : Nat := amount * rate % U64MOD / 10000

/-- Wrapping u64 subtraction, used for amount - fee at lines 96 and 156.
Both arguments are u64 values (below 2 ^ 64). -/
def sub_u64 (a b : Nat) : Nat := (a + U64MOD - b) % U64MOD

/-- OptionType enum (lib.rs lines 260-263). -/
inductive OptionType where
  | Call
  | Put
deriving DecidableEq

/-- ErrorCode enum of the program (lib.rs lines 360-369): exactly these four
variants exist. -/
inductive ErrorCode where
  | OptionAlreadyExercised
  | OptionNotExpired
  | IncorrectCollateralMint
  | CannotExerciseEarly
deriving DecidableEq

/-- Every failure an instruction of this program can surface: one of the
four program ErrorCode variants, a failure raised by the external SPL token
program during a transfer, or an Anchor has_one account-constraint
violation (the authorization failure of UpdateGovernance, lib.rs line 336). -/
inductive Err where
  | program (e : ErrorCode)
  | tokenTransferFailed
  | constraintHasOne
deriving DecidableEq

/-- SPL token account, reduced to the fields the program reads: mint and
balance. -/
structure TokenAccount where
  mint : Nat
  amount : Nat
deriving DecidableEq

/-- EscrowAccount state (lib.rs lines 234-242). -/
structure EscrowAccount where
  initializer_key : Nat
  option_type : OptionType
  strike_price : Nat
  expiration : Int
  collateral_amount : Nat
  collateral_mint : Nat
  is_exercised : Bool
deriving DecidableEq

/-- Governance state (lib.rs lines 250-254). -/
structure Governance where
  fee_rate : Nat
  fee_collector : Nat
  governance_authority : Nat
deriving DecidableEq

/-- Modelled from the spec: the external SPL asset-transfer primitive
(spec section 6), which is not part of this repository.  It fails (and moves
nothing) when the source and destination accounts hold different assets,
when the source balance is below the requested amount, or when the
destination balance would overflow u64; otherwise it debits the source and
credits the destination. -/
def transferTok (src dst : TokenAccount) (amount : Nat) :
    Except Err (TokenAccount × TokenAccount) :=
  if src.mint ≠ dst.mint then .error .tokenTransferFailed
  else if src.amount < amount then .error .tokenTransferFailed
  else if U64MOD ≤ dst.amount + amount then .error .tokenTransferFailed
  else .ok ({ src with amount := src.amount - amount },
            { dst with amount := dst.amount + amount })

/-- Accounts of the SettleEscrow context (lib.rs lines 310-328), shared by
settle_escrow and exercise_early.  The user field is the pubkey of the
signing user. -/
structure SettleAccounts where
  escrow_account : EscrowAccount
  user : Nat
  user_collateral_account : TokenAccount
  escrow_collateral_account : TokenAccount
  initializer_collateral_account : TokenAccount
  fee_collector : TokenAccount
  governance : Governance
deriving DecidableEq

/-- settle_escrow (lib.rs lines 79-133). -/
def settle_escrow (ctx : SettleAccounts) (current_time : Int) (is_itm : Bool) :
    Except Err SettleAccounts :=
  let escrow := ctx.escrow_account
  if escrow.is_exercised then .error (.program .OptionAlreadyExercised)
  else if current_time < escrow.expiration then .error (.program .OptionNotExpired)
  else
    let fee := fee_u64 escrow.collateral_amount ctx.governance.fee_rate
    let amount_after_fee := sub_u64 escrow.collateral_amount fee
    if is_itm then
      match transferTok ctx.escrow_collateral_account ctx.user_collateral_account amount_after_fee with
      | .error e => .error e
      | .ok (esc1, usr1) =>
        match transferTok esc1 ctx.fee_collector fee with
        | .error e => .error e
        | .ok (esc2, fc2) =>
          .ok { ctx with
                escrow_account := { escrow with is_exercised := true },
                user_collateral_account := usr1,
                escrow_collateral_account := esc2,
                fee_collector := fc2 }
    else
      match transferTok ctx.escrow_collateral_account ctx.initializer_collateral_account amount_after_fee with
      | .error e => .error e
      | .ok (esc1, ini1) =>
        match transferTok esc1 ctx.fee_collector fee with
        | .error e => .error e
        | .ok (esc2, fc2) =>
          .ok { ctx with
                escrow_account := { escrow with is_exercised := true },
                initializer_collateral_account := ini1,
                escrow_collateral_account := esc2,
                fee_collector := fc2 }

/-- exercise_early (lib.rs lines 140-192).  Identical to settle_escrow
except that the expiration check is replaced by the early-exercise guard on
option_type (lib.rs line 149). -/
def exercise_early (ctx : SettleAccounts) (is_itm : Bool) :
    Except Err SettleAccounts :=
  let escrow := ctx.escrow_account
  if escrow.is_exercised then .error (.program .OptionAlreadyExercised)
  else if escrow.option_type ≠ OptionType.Call ∧ escrow.option_type ≠ OptionType.Put then
    .error (.program .CannotExerciseEarly)
  else
    let fee := fee_u64 escrow.collateral_amount ctx.governance.fee_rate
    let amount_after_fee := sub_u64 escrow.collateral_amount fee
    if is_itm then
      match transferTok ctx.escrow_collateral_account ctx.user_collateral_account amount_after_fee with
      | .error e => .error e
      | .ok (esc1, usr1) =>
        match transferTok esc1 ctx.fee_collector fee with
        | .error e => .error e
        | .ok (esc2, fc2) =>
          .ok { ctx with
                escrow_account := { escrow with is_exercised := true },
                user_collateral_account := usr1,
                escrow_collateral_account := esc2,
                fee_collector := fc2 }
    else
      match transferTok ctx.escrow_collateral_account ctx.initializer_collateral_account amount_after_fee with
      | .error e => .error e
      | .ok (esc1, ini1) =>
        match transferTok esc1 ctx.fee_collector fee with
        | .error e => .error e
        | .ok (esc2, fc2) =>
          .ok { ctx with
                escrow_account := { escrow with is_exercised := true },
                initializer_collateral_account := ini1,
                escrow_collateral_account := esc2,
                fee_collector := fc2 }

/-- Accounts of the DepositCollateral context (lib.rs lines 292-302). -/
structure DepositAccounts where
  escrow_account : EscrowAccount
  user : Nat
  user_collateral_account : TokenAccount
  escrow_collateral_account : TokenAccount
deriving DecidableEq

/-- deposit_collateral (lib.rs lines 53-72).  The handler reads the escrow
account immutably and never writes it. -/
def deposit_collateral (ctx : DepositAccounts) (amount : Nat) :
    Except Err DepositAccounts :=
  if ctx.user_collateral_account.mint ≠ ctx.escrow_account.collateral_mint then
    .error (.program .IncorrectCollateralMint)
  else
    match transferTok ctx.user_collateral_account ctx.escrow_collateral_account amount with
    | .error e => .error e
    | .ok (usr1, esc1) =>
      .ok { ctx with
            user_collateral_account := usr1,
            escrow_collateral_account := esc1 }

/-- Accounts of the InitializeEscrow context that the handler touches
(lib.rs lines 271-285). -/
structure InitEscrowAccounts where
  initializer : Nat
  initializer_collateral_account : TokenAccount
  fee_collector : TokenAccount
  governance : Governance
deriving DecidableEq

/-- initialize_escrow (lib.rs lines 15-46): builds the fresh escrow record
with is_exercised = false and charges the fee to the initializer. -/
def initialize_escrow (ctx : InitEscrowAccounts) (option_type : OptionType)
    (strike_price : Nat) (expiration : Int)
    (collateral_amount collateral_mint : Nat) :
    Except Err (EscrowAccount × InitEscrowAccounts) :=
  let escrow_account : EscrowAccount :=
    { initializer_key := ctx.initializer
      option_type := option_type
      strike_price := strike_price
      expiration := expiration
      collateral_amount := collateral_amount
      collateral_mint := collateral_mint
      is_exercised := false }
  let fee := fee_u64 collateral_amount ctx.governance.fee_rate
  match transferTok ctx.initializer_collateral_account ctx.fee_collector fee with
  | .error e => .error e
  | .ok (ini1, fc1) =>
    .ok (escrow_account, { ctx with
                           initializer_collateral_account := ini1,
                           fee_collector := fc1 })

/-- update_governance (lib.rs lines 198-203) together with the Anchor
account validation of its UpdateGovernance context (lib.rs lines 335-339):
has_one = governance_authority demands that the signing
governance_authority account equal the one stored in the governance record,
failing with a has_one constraint violation otherwise. -/
def update_governance (governance : Governance) ( governance_authority : Nat)
    (new_fee_rate new_fee_collector : Nat) : Except Err Governance :=
  if governance.governance_authority ≠ governance_authority then
    .error .constraintHasOne
  else
    .ok { governance with fee_rate := new_fee_rate, fee_collector := new_fee_collector }

/-- transfer_governance (lib.rs lines 221-225), with the same
UpdateGovernance context validation as update_governance. -/
def transfer_governance (governance : Governance) ( governance_authority : Nat)
    (new_governance_authority : Nat) : Except Err Governance :=
  if governance.governance_authority ≠ governance_authority then
    .error .constraintHasOne
  else
    .ok { governance with governance_authority := new_governance_authority }

/-- initialize_governance (lib.rs lines 209-215). -/
def initialize_governance ( governance_authority : Nat)
    (fee_rate fee_collector : Nat) : Governance :=
  { fee_rate := fee_rate
    fee_collector := fee_collector
    governance_authority := governance_authority }

/-! ## Helper lemmas and concrete states -/

/-- The external transfer primitive never surfaces a program ErrorCode: its
only failure is tokenTransferFailed. -/
theorem transferTok_error_program (src dst : TokenAccount) (a : Nat) (e : ErrorCode) :
    transferTok src dst a ≠ Except.error (Err.program e) := by
  unfold transferTok
  split
  · simp
  · split
    · simp
    · split <;> simp

/-- Numeric value of the u64 modulus. -/
theorem U64MOD_eq : U64MOD = 18446744073709551616 := by norm_num [U64MOD]

/-- The user signer field is never read by settle_escrow: changing it only
changes the user field carried through to the result. -/
theorem settle_user_eq :
    ∀ (ctx : SettleAccounts) (t : Int) (itm : Bool) (u : Nat),
    settle_escrow { ctx with user := u } t itm =
      Except.map (fun r => { r with user := u }) (settle_escrow ctx t itm) := by
  intro ctx t itm u
  obtain ⟨esc, usr, uca, eca, ica, fc, gov⟩ := ctx
  simp only [settle_escrow]
  repeat' split
  all_goals try simp_all
  all_goals try rfl

/-- The user signer field is never read by exercise_early. -/
theorem exercise_user_eq :
    ∀ (ctx : SettleAccounts) (itm : Bool) (u : Nat),
    exercise_early { ctx with user := u } itm =
      Except.map (fun r => { r with user := u }) (exercise_early ctx itm) := by
  intro ctx itm u
  obtain ⟨esc, usr, uca, eca, ica, fc, gov⟩ := ctx
  simp only [exercise_early]
  repeat' split
  all_goals try simp_all
  all_goals try rfl

/-- Replace the stored collateral_mint of the escrow record. -/
def withMint (ctx : SettleAccounts) (m : Nat) : SettleAccounts :=
  { ctx with escrow_account := { ctx.escrow_account with collateral_mint := m } }

/-- settle_escrow never reads the stored collateral_mint: its outcome is the
same for every stored mint. -/
theorem settle_mint_eq :
    ∀ (ctx : SettleAccounts) (t : Int) (itm : Bool) (m : Nat),
    settle_escrow (withMint ctx m) t itm =
      Except.map (fun r => withMint r m) (settle_escrow ctx t itm) := by
  intro ctx t itm m
  obtain ⟨⟨ik, ot, sp, ex, ca, cm, ie⟩, usr, uca, eca, ica, fc, gov⟩ := ctx
  simp only [settle_escrow, withMint]
  repeat' split
  all_goals try simp_all
  all_goals try rfl

/-- exercise_early never reads the stored collateral_mint. -/
theorem exercise_mint_eq :
    ∀ (ctx : SettleAccounts) (itm : Bool) (m : Nat),
    exercise_early (withMint ctx m) itm =
      Except.map (fun r => withMint r m) (exercise_early ctx itm) := by
  intro ctx itm m
  obtain ⟨⟨ik, ot, sp, ex, ca, cm, ie⟩, usr, uca, eca, ica, fc, gov⟩ := ctx
  simp only [exercise_early, withMint]
  repeat' split
  all_goals try simp_all
  all_goals try rfl

/-- Erase the signer identity from a settlement context. -/
def eraseUser (r : SettleAccounts) : SettleAccounts := { r with user := 0 }

/-- A sample escrow record: a Call with strike 100, expiration 1000,
collateral 10000 of mint 7, not yet exercised. -/
def escrow0 : EscrowAccount :=
  { initializer_key := 1, option_type := .Call, strike_price := 100,
    expiration := 1000, collateral_amount := 10000, collateral_mint := 7,
    is_exercised := false }

/-- A sample governance record: 500 basis points, authority 3. -/
def gov0 : Governance := { fee_rate := 500, fee_collector := 9, governance_authority := 3 }

/-- A sample funded settlement context over escrow0 and gov0. -/
def settleCtx0 : SettleAccounts :=
  { escrow_account := escrow0, user := 2,
    user_collateral_account := ⟨7, 0⟩,
    escrow_collateral_account := ⟨7, 10000⟩,
    initializer_collateral_account := ⟨7, 0⟩,
    fee_collector := ⟨7, 0⟩,
    governance := gov0 }

/-- The result of an ITM settlement of settleCtx0: net 9500 to the user,
fee 500 to the collector, is_exercised set. -/
def settled0 : SettleAccounts :=
  { escrow_account := { escrow0 with is_exercised := true },
    user := 2,
    user_collateral_account := ⟨7, 9500⟩,
    escrow_collateral_account := ⟨7, 0⟩,
    initializer_collateral_account := ⟨7, 0⟩,
    fee_collector := ⟨7, 500⟩,
    governance := gov0 }

/-- settleCtx0 with the option already exercised. -/
def exercisedCtx : SettleAccounts :=
  { settleCtx0 with escrow_account := { escrow0 with is_exercised := true } }

/-- A deposit context whose user account holds 10000 of the correct mint. -/
def depositCtx0 : DepositAccounts :=
  { escrow_account := escrow0, user := 2,
    user_collateral_account := ⟨7, 10000⟩,
    escrow_collateral_account := ⟨7, 0⟩ }

/-- The result of depositing 10000 from depositCtx0. -/
def depositRes0 : DepositAccounts :=
  { depositCtx0 with
    user_collateral_account := ⟨7, 0⟩,
    escrow_collateral_account := ⟨7, 10000⟩ }

/-- depositCtx0 with a user account of the wrong mint. -/
def badMintDepositCtx : DepositAccounts :=
  { depositCtx0 with user_collateral_account := ⟨9, 100⟩ }

/-- A settlement context whose collateral amount 2 ^ 63 and fee rate 2 make
the u64 product overflow. -/
def wrapCtx : SettleAccounts :=
  { escrow_account := { escrow0 with collateral_amount := 2 ^ 63 },
    user := 2,
    user_collateral_account := ⟨7, 0⟩,
    escrow_collateral_account := ⟨7, 2 ^ 63⟩,
    initializer_collateral_account := ⟨7, 0⟩,
    fee_collector := ⟨7, 0⟩,
    governance := { gov0 with fee_rate := 2 } }

/-- The result of settling wrapCtx: the wrapped fee is 0, the whole
collateral goes to the user and nothing to the fee collector. -/
def wrapRes : SettleAccounts :=
  { wrapCtx with
    escrow_account := { escrow0 with collateral_amount := 2 ^ 63, is_exercised := true },
    user_collateral_account := ⟨7, 2 ^ 63⟩,
    escrow_collateral_account := ⟨7, 0⟩,
    fee_collector := ⟨7, 0⟩ }

/-- A settlement context over escrow0 (stored collateral_mint 7) whose token
accounts all hold mint 8 instead. -/
def mismatchCtx : SettleAccounts :=
  { settleCtx0 with
    user_collateral_account := ⟨8, 0⟩,
    escrow_collateral_account := ⟨8, 10000⟩,
    initializer_collateral_account := ⟨8, 0⟩,
    fee_collector := ⟨8, 0⟩ }

/-- The result of settling mismatchCtx: the mint-8 tokens move and the
record is marked exercised although mint 8 is not the collateral mint. -/
def mismatchRes : SettleAccounts :=
  { mismatchCtx with
    escrow_account := { escrow0 with is_exercised := true },
    user_collateral_account := ⟨8, 9500⟩,
    escrow_collateral_account := ⟨8, 0⟩,
    fee_collector := ⟨8, 500⟩ }

/-! ## Claims -/

/-- Claim C1: is_exercised is monotonic and terminal.  On a record with
is_exercised = true both settle_escrow and exercise_early fail with
OptionAlreadyExercised for every is_itm and every current time (the error
result means the aborted transaction leaves the record unchanged); every
successful settle_escrow or exercise_early leaves is_exercised = true; and
deposit_collateral, the only other operation touching an existing escrow
record, preserves is_exercised, so no operation resets it to false. -/
theorem is_exercised_monotone_terminal :
    ∀ (ctx : SettleAccounts) (t : Int) (itm : Bool),
    (ctx.escrow_account.is_exercised = true →
      settle_escrow ctx t itm = .error (.program .OptionAlreadyExercised) ∧
      exercise_early ctx itm = .error (.program .OptionAlreadyExercised)) ∧
    (∀ r : SettleAccounts, settle_escrow ctx t itm = .ok r →
      r.escrow_account.is_exercised = true) ∧
    (∀ r : SettleAccounts, exercise_early ctx itm = .ok r →
      r.escrow_account.is_exercised = true) ∧
    (∀ (dctx : DepositAccounts) (amount : Nat) (r : DepositAccounts),
      deposit_collateral dctx amount = .ok r →
      r.escrow_account.is_exercised = dctx.escrow_account.is_exercised) := by
  intro ctx t itm
  refine ⟨?_, ?_, ?_, ?_⟩
  · intro hex
    constructor <;> simp [settle_escrow, exercise_early, hex]
  · intro r hr
    simp only [settle_escrow] at hr
    repeat' split at hr
    all_goals simp_all
    all_goals subst hr
    all_goals rfl
  · intro r hr
    simp only [exercise_early] at hr
    repeat' split at hr
    all_goals simp_all
    all_goals subst hr
    all_goals rfl
  · intro dctx amount r hr
    simp only [deposit_collateral] at hr
    repeat' split at hr
    all_goals simp_all
    all_goals subst hr
    all_goals rfl

/-- Witness for C1: concrete runs on an exercised record, a successful
settlement and a successful deposit. -/
theorem is_exercised_monotone_terminal_witness :
    settle_escrow exercisedCtx 0 true = .error (.program .OptionAlreadyExercised) ∧
    exercise_early exercisedCtx false = .error (.program .OptionAlreadyExercised) ∧
    settled0.escrow_account.is_exercised = true ∧
    depositRes0.escrow_account.is_exercised = depositCtx0.escrow_account.is_exercised :=
  ⟨((is_exercised_monotone_terminal exercisedCtx 0 true).1 rfl).1,
   ((is_exercised_monotone_terminal exercisedCtx 0 false).1 rfl).2,
   (is_exercised_monotone_terminal settleCtx0 1000 true).2.1 settled0 rfl,
   (is_exercised_monotone_terminal settleCtx0 1000 true).2.2.2 depositCtx0 10000 depositRes0 rfl⟩

/-- Counterexample to C2 as stated: with amount 2 ^ 63 (a valid u64) and
rate 2, the u64 product wraps modulo 2 ^ 64, so the fee the operations
compute is 0 while floor(amount * rate / 10000) is 1844674407370955; an ITM
settlement at those values succeeds and sends 0 to the fee collector. -/
theorem fee_floor_contract_fails_on_overflow :
    fee_u64 (2 ^ 63) 2 = 0 ∧
    2 ^ 63 * 2 / 10000 = 1844674407370955 ∧
    (0 : Nat) ≠ 1844674407370955 ∧
    settle_escrow wrapCtx 1000 true = .ok wrapRes ∧
    wrapRes.fee_collector.amount = 0 :=
  ⟨by decide, by decide, by decide, rfl, rfl⟩

/-- Claim C2, amended: whenever the product amount * rate fits in u64 (in
particular this restricts the amount once the rate is positive), the fee
computed by every money-moving operation equals
floor(amount * rate / 10000), the remainder equals amount - fee, their sum
is the amount, and the fee never exceeds the amount. -/
theorem fee_remainder_exact :
    ∀ (amount rate : Nat), amount < U64MOD → rate ≤ 10000 → amount * rate < U64MOD →
    fee_u64 amount rate = amount * rate / 10000 ∧
    sub_u64 amount (fee_u64 amount rate) = amount - fee_u64 amount rate ∧
    fee_u64 amount rate + sub_u64 amount (fee_u64 amount rate) = amount ∧
    fee_u64 amount rate ≤ amount := by
  intro amount rate ha hr hprod
  have hfee : fee_u64 amount rate = amount * rate / 10000 := by
    simp [fee_u64, Nat.mod_eq_of_lt hprod]
  have hle : amount * rate / 10000 ≤ amount := by
    have h1 : amount * rate ≤ amount * 10000 := Nat.mul_le_mul_left amount hr
    have h2 : amount * rate / 10000 ≤ amount * 10000 / 10000 := Nat.div_le_div_right h1
    simpa using h2
  have hsub : sub_u64 amount (fee_u64 amount rate) = amount - fee_u64 amount rate := by
    rw [hfee]
    simp only [sub_u64, U64MOD_eq] at *
    omega
  refine ⟨hfee, hsub, ?_, by rw [hfee]; exact hle⟩
  rw [hsub, hfee]
  omega

/-- Witness for C2 amended, at amount 10000 and rate 500. -/
theorem fee_remainder_exact_witness :
    fee_u64 10000 500 = 10000 * 500 / 10000 ∧
    sub_u64 10000 (fee_u64 10000 500) = 10000 - fee_u64 10000 500 ∧
    fee_u64 10000 500 + sub_u64 10000 (fee_u64 10000 500) = 10000 ∧
    fee_u64 10000 500 ≤ 10000 :=
  fee_remainder_exact 10000 500 (by decide) (by decide) (by decide)

/-- Claim C3: on a not-yet-exercised record, settle_escrow strictly before
expiration fails with OptionNotExpired (the aborted transaction changes no
state), and the is_exercised check comes first: an already-exercised record
yields OptionAlreadyExercised even before expiration. -/
theorem settle_escrow_not_expired_guard :
    ∀ (ctx : SettleAccounts) (t : Int) (itm : Bool),
    (ctx.escrow_account.is_exercised = false → t < ctx.escrow_account.expiration →
      settle_escrow ctx t itm = .error (.program .OptionNotExpired)) ∧
    (ctx.escrow_account.is_exercised = true →
      settle_escrow ctx t itm = .error (.program .OptionAlreadyExercised)) := by
  intro ctx t itm
  constructor
  · intro hex ht
    simp [settle_escrow, hex, ht]
  · intro hex
    simp [settle_escrow, hex]

/-- Witness for C3 at time 5, before the expiration 1000 of escrow0. -/
theorem settle_escrow_not_expired_guard_witness :
    settle_escrow settleCtx0 5 true = .error (.program .OptionNotExpired) ∧
    settle_escrow exercisedCtx 5 false = .error (.program .OptionAlreadyExercised) :=
  ⟨(settle_escrow_not_expired_guard settleCtx0 5 true).1 rfl (by decide),
   (settle_escrow_not_expired_guard exercisedCtx 5 false).2 rfl⟩

/-- Claim C4: deposit_collateral fails with IncorrectCollateralMint exactly
when the depositor account mint differs from the stored collateral_mint
(failing before the transfer, so both balances are untouched); when the
mints agree and the transfer itself can proceed, the deposit succeeds for
every amount, with no condition relating the amount to collateral_amount
and no limit on the number of deposits. -/
theorem deposit_collateral_mint_precondition :
    ∀ (ctx : DepositAccounts) (amount : Nat),
    (deposit_collateral ctx amount = .error (.program .IncorrectCollateralMint) ↔
      ctx.user_collateral_account.mint ≠ ctx.escrow_account.collateral_mint) ∧
    (ctx.user_collateral_account.mint = ctx.escrow_account.collateral_mint →
     ctx.user_collateral_account.mint = ctx.escrow_collateral_account.mint →
     amount ≤ ctx.user_collateral_account.amount →
     ctx.escrow_collateral_account.amount + amount < U64MOD →
     deposit_collateral ctx amount =
       .ok { ctx with
             user_collateral_account :=
               { ctx.user_collateral_account with
                 amount := ctx.user_collateral_account.amount - amount },
             escrow_collateral_account :=
               { ctx.escrow_collateral_account with
                 amount := ctx.escrow_collateral_account.amount + amount } }) := by
  intro ctx amount
  constructor
  · constructor
    · intro h
      simp only [deposit_collateral] at h
      split at h
      · assumption
      · repeat' split at h
        all_goals simp_all [transferTok_error_program]
    · intro h
      simp [deposit_collateral, h]
  · intro h1 h2 h3 h4
    have h5 : ctx.escrow_account.collateral_mint = ctx.escrow_collateral_account.mint := by
      rw [← h1, h2]
    simp [deposit_collateral, transferTok, h1, h2, h5, Nat.not_lt.mpr h3, Nat.not_le.mpr h4]

/-- Witness for C4: a mismatched-mint deposit fails and a matched deposit
of the full collateral succeeds. -/
theorem deposit_collateral_mint_precondition_witness :
    deposit_collateral badMintDepositCtx 5 = .error (.program .IncorrectCollateralMint) ∧
    deposit_collateral depositCtx0 10000 = .ok depositRes0 :=
  ⟨(deposit_collateral_mint_precondition badMintDepositCtx 5).1.mpr (by decide),
   (deposit_collateral_mint_precondition depositCtx0 10000).2 rfl rfl (by decide) (by decide)⟩

/-- Claim C5: for every caller other than the stored governance_authority,
update_governance and transfer_governance fail with the has_one
authorization error of their shared UpdateGovernance context, so the
aborted transaction leaves fee_rate, fee_collector and governance_authority
unchanged. -/
theorem governance_requires_authority :
    ∀ (gov : Governance) (caller new_fee_rate new_fee_collector new_authority : Nat),
    caller ≠ gov.governance_authority →
    update_governance gov caller new_fee_rate new_fee_collector = .error .constraintHasOne ∧
    transfer_governance gov caller new_authority = .error .constraintHasOne := by
  intro gov caller new_fee_rate new_fee_collector new_authority h
  constructor <;> simp [update_governance, transfer_governance, Ne.symm h]

/-- Witness for C5: caller 4 is not the stored authority 3 of gov0. -/
theorem governance_requires_authority_witness :
    update_governance gov0 4 100 11 = .error .constraintHasOne ∧
    transfer_governance gov0 4 12 = .error .constraintHasOne :=
  governance_requires_authority gov0 4 100 11 12 (by decide)

/-- Counterexample to C6 as stated: settle_escrow on a context whose token
accounts all hold mint 8 while the stored collateral_mint is 7 is not
rejected: it succeeds, moves the mint-8 tokens and mutates the record. -/
theorem settle_ignores_collateral_mint_counterexample :
    mismatchCtx.escrow_collateral_account.mint ≠ mismatchCtx.escrow_account.collateral_mint ∧
    mismatchCtx.user_collateral_account.mint ≠ mismatchCtx.escrow_account.collateral_mint ∧
    settle_escrow mismatchCtx 1000 true = .ok mismatchRes ∧
    mismatchRes.escrow_account.is_exercised = true :=
  ⟨by decide, by decide, rfl, rfl⟩

/-- Claim C6, amended: only deposit_collateral checks an involved account
against the stored collateral_mint (rejecting a mismatched depositor
account before the transfer); settle_escrow and exercise_early perform no
such check at all: their outcome is independent of the stored
collateral_mint, so a mismatched asset on their accounts is not rejected. -/
theorem mint_check_only_in_deposit :
    (∀ (dctx : DepositAccounts) (amount : Nat),
      dctx.user_collateral_account.mint ≠ dctx.escrow_account.collateral_mint →
      deposit_collateral dctx amount = .error (.program .IncorrectCollateralMint)) ∧
    (∀ (ctx : SettleAccounts) (t : Int) (itm : Bool) (m : Nat),
      settle_escrow (withMint ctx m) t itm =
        Except.map (fun r => withMint r m) (settle_escrow ctx t itm)) ∧
    (∀ (ctx : SettleAccounts) (itm : Bool) (m : Nat),
      exercise_early (withMint ctx m) itm =
        Except.map (fun r => withMint r m) (exercise_early ctx itm)) := by
  refine ⟨?_, ?_, ?_⟩
  · intro dctx amount h
    simp [deposit_collateral, h]
  · exact settle_mint_eq
  · exact exercise_mint_eq

/-- Witness for C6 amended: a concrete mismatched deposit fails with
IncorrectCollateralMint. -/
theorem mint_check_only_in_deposit_witness :
    deposit_collateral badMintDepositCtx 100 = .error (.program .IncorrectCollateralMint) :=
  mint_check_only_in_deposit.1 badMintDepositCtx 100 (by decide)

/-- Claim C7 at its failing input: the u64 fee multiplication silently
wraps rather than widening or rejecting: at collateral 2 ^ 63 and rate 2
the product reaches 2 ^ 64, the computed fee is the wrapped 0, and the
settlement still succeeds and marks the record exercised; and at rate 20000
with amount 1 the remainder subtraction wraps to 2 ^ 64 - 1 instead of
failing with an arithmetic error (ErrorCode has no such variant). -/
theorem fee_arithmetic_wraps_at_failing_input :
    U64MOD ≤ 2 ^ 63 * 2 ∧
    fee_u64 (2 ^ 63) 2 = 0 ∧
    settle_escrow wrapCtx 1000 true = .ok wrapRes ∧
    wrapRes.escrow_account.is_exercised = true ∧
    fee_u64 1 20000 = 2 ∧
    sub_u64 1 (fee_u64 1 20000) = U64MOD - 1 :=
  ⟨by decide, by decide, rfl, rfl, by decide, by decide⟩

/-- Claim C8: exercise_early equals settle_escrow whenever the expiration
check of the latter passes (it omits only that check), and its
early-exercise guard is satisfied by both Call and Put, so exercise_early
never returns CannotExerciseEarly. -/
theorem exercise_early_refines_settle_escrow :
    ∀ (ctx : SettleAccounts) (t : Int) (itm : Bool),
    (ctx.escrow_account.expiration ≤ t →
      exercise_early ctx itm = settle_escrow ctx t itm) ∧
    exercise_early ctx itm ≠ .error (.program .CannotExerciseEarly) := by
  intro ctx t itm
  have hguard : ¬ (ctx.escrow_account.option_type ≠ OptionType.Call ∧
      ctx.escrow_account.option_type ≠ OptionType.Put) := by
    cases hq : ctx.escrow_account.option_type <;> simp [hq]
  constructor
  · intro ht
    have hnt : ¬ t < ctx.escrow_account.expiration := not_lt.mpr ht
    simp only [exercise_early, settle_escrow]
    simp [hnt, hguard]
  · intro h
    simp only [exercise_early] at h
    repeat' split at h
    all_goals simp_all [transferTok_error_program]

/-- Witness for C8: at expiration time 1000 the two operations agree on
settleCtx0. -/
theorem exercise_early_refines_settle_escrow_witness :
    exercise_early settleCtx0 true = settle_escrow settleCtx0 1000 true :=
  (exercise_early_refines_settle_escrow settleCtx0 1000 true).1 (by decide)

/-- Claim C9: settle_escrow and exercise_early never read the signing user:
two runs that differ only in the caller identity produce the same result
and the same state change (up to the recorded identity field itself), so
any signer may settle and choose the is_itm outcome. -/
theorem settlement_caller_independent :
    ∀ (ctx : SettleAccounts) (t : Int) (itm : Bool) (u v : Nat),
    Except.map eraseUser (settle_escrow { ctx with user := u } t itm) =
      Except.map eraseUser (settle_escrow { ctx with user := v } t itm) ∧
    Except.map eraseUser (exercise_early { ctx with user := u } itm) =
      Except.map eraseUser (exercise_early { ctx with user := v } itm) := by
  intro ctx t itm u v
  constructor
  · rw [settle_user_eq ctx t itm u, settle_user_eq ctx t itm v]
    cases settle_escrow ctx t itm <;> rfl
  · rw [exercise_user_eq ctx itm u, exercise_user_eq ctx itm v]
    cases exercise_early ctx itm <;> rfl

/-- Claim C10: a successful deposit_collateral returns the escrow record
with every field exactly as before the call (a failed one aborts the
transaction and also changes nothing); its only effect is the token
transfer. -/
theorem deposit_preserves_escrow_record :
    ∀ (ctx : DepositAccounts) (amount : Nat) (r : DepositAccounts),
    deposit_collateral ctx amount = .ok r →
    r.escrow_account = ctx.escrow_account := by
  intro ctx amount r hr
  simp only [deposit_collateral] at hr
  repeat' split at hr
  all_goals simp_all
  all_goals subst hr
  all_goals rfl

/-- Witness for C10: the concrete successful deposit keeps escrow0. -/
theorem deposit_preserves_escrow_record_witness :
    depositRes0.escrow_account = depositCtx0.escrow_account :=
  deposit_preserves_escrow_record depositCtx0 10000 depositRes0 rfl
